import Mathlib

/-!
Shallow embedding of the document-workflow backend (BAPB goods-receipt and
BAPP work-progress documents): repositories (`BAPBRepository.js`,
`BAPPRepository.js`), approval controllers (`bapbApprovalController.js`,
`bappApprovalController.js`, the `approveBAPB` variant of
`signatureController.js`), document controllers (`bapbController.js`,
`bappController.js`) and `paymentService.js`.

Modelling conventions:
* JavaScript numbers are modelled as rationals (`ℚ`); `toFixed(2)` is
  modelled as round-half-up to hundredths followed by decimal formatting.
* Postgrest `.single()` yields a row exactly when one row matches (it
  errors with code PGRST116 both for zero and for several rows, and the
  callers treat that error as "no data"); `.maybeSingle()` yields a row
  for one match, null for zero matches, and an error for several.
* The remote store offers no transactions: each controller/repository
  operation is a sequence of independent writes.  Fallible writes take an
  oracle recording which write calls succeed; a failed write raises,
  which the surrounding catch turns into a 500 response, with all writes
  issued so far already persisted.
* Timestamps are modelled as calendar date-times compared
  lexicographically, matching comparison of ISO-8601 strings with the
  server clock taken in UTC.
-/

namespace Vinalz

/-- Document lifecycle status enum. -/
inductive Status
  | draft
  | submitted
  | inReview
  | approved
  | rejected
  | revisionRequired
deriving DecidableEq, Repr

/-- Approval-record action enum. -/
inductive Action
  | approved
  | rejected
  | revisionRequired
deriving DecidableEq, Repr

/-- User roles appearing in the authorization checks. -/
inductive Role
  | vendor
  | vendorBarang
  | vendorJasa
  | picGudang
  | approver
  | admin
deriving DecidableEq, Repr

/-- A JavaScript value that is either a number or a string
(`_calculateTotalProgress` returns the number `0` for an empty list and a
`toFixed(2)` string otherwise). -/
inductive JsVal
  | num (q : ℚ)
  | str (s : String)
deriving DecidableEq, Repr

/-- `String.prototype.padStart(w, "0")` on the decimal rendering of `n`. -/
def zpad (w : Nat) (n : Nat) : String :=
  let s := toString n
  String.mk (List.replicate (w - s.length) '0') ++ s

/-- `Number.prototype.toFixed(2)`: the integer `n` with `n / 100` closest
to the argument (the larger one on ties), rendered with two decimals. -/
def toFixed2 (q : ℚ) : String :=
  let n : Int := Rat.floor (100 * q + 1 / 2)
  let m : Nat := n.natAbs
  (if n < 0 then "-" else "") ++ toString (m / 100) ++ "." ++ zpad 2 (m % 100)

/-- JavaScript `a || b` for numeric values (`0` is falsy). -/
def jsOrQ (a : Option ℚ) (b : ℚ) : ℚ :=
  match a with
  | some v => if v = 0 then b else v
  | none => b

/-- JavaScript `a || b` for string values (`""` is falsy); `none` is
`undefined`/`null`. -/
def jsOrS (a b : Option String) : Option String :=
  match a with
  | some s => if s = "" then b else some s
  | none => b

/-- A raw BAPP work item as supplied by a request body: either camelCase
or snake_case keys may be present. -/
structure WorkItemInput where
  workItemName : Option String := none
  work_item_name : Option String := none
  plannedProgress : Option ℚ := none
  planned_progress : Option ℚ := none
  actualProgress : Option ℚ := none
  actual_progress : Option ℚ := none
  unit : Option String := none
  quality : Option String := none
  notes : Option String := none
deriving DecidableEq, Repr

/-- The value `parseFloat(item.actual_progress || item.actualProgress || 0)`
used by `_calculateTotalProgress`. -/
def calcItemActual (it : WorkItemInput) : ℚ :=
  jsOrQ it.actual_progress (jsOrQ it.actualProgress 0)

/-- The reduce in `_calculateTotalProgress`:
`workItems.reduce((sum, item) => sum + parseFloat(...), 0)`. -/
def totalActualProgress (l : List WorkItemInput) : ℚ :=
  l.foldl (fun s it => s + calcItemActual it) 0

/-- `BAPPRepository._calculateTotalProgress` (the leading underscore is
dropped from the Lean name): `0` for a missing or empty list, otherwise
`(total / length).toFixed(2)`. -/
def calculateTotalProgress (w : Option (List WorkItemInput)) : JsVal :=
  match w with
  | none => .num 0
  | some l =>
      if l.length = 0 then .num 0
      else .str (toFixed2 (totalActualProgress l / (l.length : ℚ)))

/-! ### Role helpers (`bapbController.js`, `bappController.js`) -/

/-- `canManageBAPB`: `["vendor_barang", "vendor", "admin"].includes(userRole)`. -/
def canManageBAPB (r : Role) : Bool :=
  r == .vendorBarang || r == .vendor || r == .admin

/-- `isVendorBarang`: `["vendor_barang", "vendor"].includes(userRole)`. -/
def isVendorBarang (r : Role) : Bool :=
  r == .vendorBarang || r == .vendor

/-- `canManageBAPP`: `["vendor_jasa", "vendor", "admin"].includes(userRole)`. -/
def canManageBAPP (r : Role) : Bool :=
  r == .vendorJasa || r == .vendor || r == .admin

/-- `isVendorJasa`: `["vendor_jasa", "vendor"].includes(userRole)`. -/
def isVendorJasa (r : Role) : Bool :=
  r == .vendorJasa || r == .vendor

/-- `['submitted', 'in_review'].includes(status)`. -/
def isSubmittedOrInReview (s : Status) : Bool :=
  s == .submitted || s == .inReview

/-- `['draft', 'revision_required'].includes(status)`. -/
def isDraftOrRevision (s : Status) : Bool :=
  s == .draft || s == .revisionRequired

/-- `['pic_gudang', 'approver', 'admin'].includes(role)` (BAPB approval). -/
def bapbReviewerRole (r : Role) : Bool :=
  r == .picGudang || r == .approver || r == .admin

/-- `['approver', 'admin'].includes(role)` (BAPP approval). -/
def bappReviewerRole (r : Role) : Bool :=
  r == .approver || r == .admin

/-! ### Document rows -/

/-- A row of the `bapb` table (fields touched by the modelled operations). -/
structure BAPB where
  id : Nat
  bapb_number : String
  vendor_id : Nat
  pic_gudang_id : Option Nat := none
  order_number : Option String := none
  delivery_date : Option String := none
  notes : Option String := none
  status : Status
  rejection_reason : Option String := none
deriving DecidableEq, Repr

/-- A row of the `bapp` table (fields touched by the modelled operations). -/
structure BAPP where
  id : Nat
  bapp_number : String
  vendor_id : Nat
  direksi_pekerjaan_id : Option Nat := none
  contract_number : Option String := none
  project_name : Option String := none
  project_location : Option String := none
  start_date : Option String := none
  end_date : Option String := none
  completion_date : Option String := none
  notes : Option String := none
  status : Status
  rejection_reason : Option String := none
  total_progress : JsVal := .num 0
deriving DecidableEq, Repr

/-- A raw BAPB item as supplied by a request body (camelCase or
snake_case keys). -/
structure BapbItemInput where
  itemName : Option String := none
  item_name : Option String := none
  quantityOrdered : Option ℚ := none
  quantity_ordered : Option ℚ := none
  quantityReceived : Option ℚ := none
  quantity_received : Option ℚ := none
  unit : Option String := none
  condition : Option String := none
  notes : Option String := none
deriving DecidableEq, Repr

/-- A row of the `bapb_items` table. -/
structure BapbItemRow where
  bapb_id : Nat
  item_name : Option String := none
  quantity_ordered : Option ℚ := none
  quantity_received : Option ℚ := none
  unit : Option String := none
  condition : Option String := none
  notes : Option String := none
deriving DecidableEq, Repr

/-- A row of the `bapp_work_items` table. -/
structure BappWorkItemRow where
  bapp_id : Nat
  work_item_name : Option String := none
  planned_progress : ℚ := 0
  actual_progress : ℚ := 0
  unit : Option String := none
  quality : String := "acceptable"
  notes : Option String := none
deriving DecidableEq, Repr

/-- JavaScript `a || b` where both sides are optional numbers
(`0 || undefined` is `undefined`). -/
def jsOrQOpt (a b : Option ℚ) : Option ℚ :=
  match a with
  | some v => if v = 0 then b else some v
  | none => b

/-- The item mapping inside `BAPBRepository.createWithItems` /
`updateWithItems`. -/
def mapBapbItem (bapbId : Nat) (it : BapbItemInput) : BapbItemRow :=
  { bapb_id := bapbId
    item_name := jsOrS it.itemName it.item_name
    quantity_ordered := jsOrQOpt it.quantityOrdered it.quantity_ordered
    quantity_received := jsOrQOpt it.quantityReceived it.quantity_received
    unit := it.unit
    condition := it.condition
    notes := jsOrS it.notes none }

/-- The work-item mapping inside `BAPPRepository.createWithWorkItems` /
`updateWithWorkItems`. -/
def mapBappWorkItem (bappId : Nat) (it : WorkItemInput) : BappWorkItemRow :=
  { bapp_id := bappId
    work_item_name := jsOrS it.workItemName it.work_item_name
    planned_progress := jsOrQ it.plannedProgress (jsOrQ it.planned_progress 0)
    actual_progress := jsOrQ it.actualProgress (jsOrQ it.actual_progress 0)
    unit := it.unit
    quality := (jsOrS it.quality none).getD "acceptable"
    notes := jsOrS it.notes none }

/-! ### Create with children (`createWithItems` / `createWithWorkItems`) -/

/-- Store contents touched by a BAPB create. -/
structure BapbCreateDB where
  bapbs : List BAPB
  bapb_items : List BapbItemRow
deriving DecidableEq, Repr

/-- Store contents touched by a BAPP create. -/
structure BappCreateDB where
  bapps : List BAPP
  bapp_work_items : List BappWorkItemRow
deriving DecidableEq, Repr

/-- Which of the sequenced store writes succeed during a create. -/
structure CreateOracle where
  docInsertOk : Bool
  itemsInsertOk : Bool
deriving DecidableEq, Repr

/-- Fields of a new BAPB passed by `createBAPB` to the repository. -/
structure BapbData where
  bapb_number : String
  vendor_id : Nat
  order_number : Option String := none
  delivery_date : Option String := none
  notes : Option String := none
  status : Status := .draft
deriving DecidableEq, Repr

/-- Fields of a new BAPP passed by `createBAPP` to the repository. -/
structure BappData where
  bapp_number : String
  vendor_id : Nat
  contract_number : Option String := none
  project_name : Option String := none
  project_location : Option String := none
  start_date : Option String := none
  end_date : Option String := none
  completion_date : Option String := none
  notes : Option String := none
  status : Status := .draft
deriving DecidableEq, Repr

/-- `BAPBRepository.createWithItems`: insert the `bapb` row, then bulk
insert the mapped items; on an item-insert error delete the new `bapb`
row again (manual rollback) and surface one aggregated error. -/
def createWithItems (db : BapbCreateDB) (newId : Nat) (bapbData : BapbData)
    (items : List BapbItemInput) (o : CreateOracle) :
    Except String BAPB × BapbCreateDB :=
  if !o.docInsertOk then (.error "Error creating BAPB", db)
  else
    let bapb : BAPB :=
      { id := newId, bapb_number := bapbData.bapb_number
        vendor_id := bapbData.vendor_id, order_number := bapbData.order_number
        delivery_date := bapbData.delivery_date, notes := bapbData.notes
        status := bapbData.status }
    let db1 : BapbCreateDB := { db with bapbs := db.bapbs ++ [bapb] }
    if items.length > 0 then
      let itemsToCreate := items.map (mapBapbItem newId)
      if !o.itemsInsertOk then
        let db2 : BapbCreateDB :=
          { db1 with bapbs := db1.bapbs.filter (fun r => r.id != newId) }
        (.error "Failed to create BAPB items: insert error", db2)
      else
        (.ok bapb, { db1 with bapb_items := db1.bapb_items ++ itemsToCreate })
    else
      (.ok bapb, db1)

/-- `BAPPRepository.createWithWorkItems`: compute `total_progress` from
the raw work items, insert the `bapp` row carrying it, then bulk insert
the mapped work items; on an item-insert error delete the new `bapp` row
again and surface one aggregated error. -/
def createWithWorkItems (db : BappCreateDB) (newId : Nat) (bappData : BappData)
    (workItems : List WorkItemInput) (o : CreateOracle) :
    Except String BAPP × BappCreateDB :=
  let totalProgress := calculateTotalProgress (some workItems)
  if !o.docInsertOk then (.error "Error creating BAPP", db)
  else
    let bapp : BAPP :=
      { id := newId, bapp_number := bappData.bapp_number
        vendor_id := bappData.vendor_id
        contract_number := bappData.contract_number
        project_name := bappData.project_name
        project_location := bappData.project_location
        start_date := bappData.start_date, end_date := bappData.end_date
        completion_date := bappData.completion_date, notes := bappData.notes
        status := bappData.status, total_progress := totalProgress }
    let db1 : BappCreateDB := { db with bapps := db.bapps ++ [bapp] }
    if workItems.length > 0 then
      let itemsToCreate := workItems.map (mapBappWorkItem newId)
      if !o.itemsInsertOk then
        let db2 : BappCreateDB :=
          { db1 with bapps := db1.bapps.filter (fun r => r.id != newId) }
        (.error "Failed to create BAPP work items: insert error", db2)
      else
        (.ok bapp, { db1 with bapp_work_items := db1.bapp_work_items ++ itemsToCreate })
    else
      (.ok bapp, db1)

/-! ### Submit (`submitBAPB` / `submitBAPP` in the document controllers) -/

/-- An HTTP-style controller outcome without payload. -/
inductive Resp
  | err (code : Nat) (message : String)
  | ok
deriving DecidableEq, Repr

/-- `bapbController.submitBAPB` on a found document: authorization,
vendor-type, status and non-empty-items checks, then
`updateStatus(id, "submitted")`.  The returned row is the document after
the call (unchanged on every error path, which returns before the
write). -/
def submitBAPB (bapb : BAPB) (items : List BapbItemRow) (callerId : Nat)
    (role : Role) : Resp × BAPB :=
  if bapb.vendor_id != callerId then
    (.err 403 "Not authorized to submit this BAPB", bapb)
  else if !canManageBAPB role then
    (.err 403 "Access denied. Only vendor barang can submit BAPB", bapb)
  else if !isDraftOrRevision bapb.status then
    (.err 400 "Can only submit BAPB in draft or revision status", bapb)
  else if items.length == 0 then
    (.err 400 "BAPB must have at least one item. Please add items before submitting.", bapb)
  else
    (.ok, { bapb with status := .submitted })

/-- `bappController.submitBAPP`, structurally parallel to `submitBAPB`. -/
def submitBAPP (bapp : BAPP) (workItems : List BappWorkItemRow) (callerId : Nat)
    (role : Role) : Resp × BAPP :=
  if bapp.vendor_id != callerId then
    (.err 403 "Not authorized to submit this BAPP", bapp)
  else if !canManageBAPP role then
    (.err 403 "Access denied. Only vendor jasa can submit BAPP", bapp)
  else if !isDraftOrRevision bapp.status then
    (.err 400 "Can only submit BAPP in draft or revision status", bapp)
  else if workItems.length == 0 then
    (.err 400 "BAPP must have at least one work item. Please add work items before submitting.", bapp)
  else
    (.ok, { bapp with status := .submitted })

/-! ### Update (`updateBAPB` / `updateBAPP` controllers with
`updateWithItems` / `updateWithWorkItems`) -/

/-- JavaScript truthiness of an optional string (`undefined` and `""` are
falsy). -/
def truthy (x : Option String) : Bool :=
  match x with
  | some s => s != ""
  | none => false

/-- Store-side merge of one optional column: an absent key leaves the
stored value, a present key overwrites it. -/
def patchS (new old : Option String) : Option String :=
  match new with
  | some v => some v
  | none => old

/-- Store-side merge of a nullable column that an update may also set to
null (`some none`). -/
def patchR (new : Option (Option String)) (old : Option String) : Option String :=
  match new with
  | some v => v
  | none => old

/-- The partial `updateData` object assembled by `updateBAPB`: a key is
`none` when absent; `rejection_reason := some none` sets the column to
null. -/
structure BapbUpdateData where
  order_number : Option String := none
  delivery_date : Option String := none
  notes : Option String := none
  status : Option Status := none
  rejection_reason : Option (Option String) := none
deriving DecidableEq, Repr

/-- Row merge performed by the store for `update(id, updateData)`. -/
def applyBapbUpdate (b : BAPB) (u : BapbUpdateData) : BAPB :=
  { b with
    order_number := patchS u.order_number b.order_number
    delivery_date := patchS u.delivery_date b.delivery_date
    notes := patchS u.notes b.notes
    status := u.status.getD b.status
    rejection_reason := patchR u.rejection_reason b.rejection_reason }

/-- `BAPBRepository.updateWithItems`: merge the document fields; when an
item list is supplied, delete all existing items of the document and
insert the mapped replacement set. -/
def updateWithItems (bapb : BAPB) (bapbItems : List BapbItemRow)
    (u : BapbUpdateData) (items : Option (List BapbItemInput)) :
    BAPB × List BapbItemRow :=
  match items with
  | some its => (applyBapbUpdate bapb u, its.map (mapBapbItem bapb.id))
  | none => (applyBapbUpdate bapb u, bapbItems)

/-- Request body of `PUT /api/bapb/:id`. -/
structure BapbUpdateReq where
  orderNumber : Option String := none
  deliveryDate : Option String := none
  notes : Option String := none
  items : Option (List BapbItemInput) := none
deriving DecidableEq, Repr

/-- The `updateData` object assembled by `updateBAPB`: each key is set by
its own conditional assignment (`if (orderNumber) ...`,
`if (notes !== undefined) ...`, and the `revision_required` reset), so
the object is given here field by field. -/
def bapbUpdateDataOf (bapb : BAPB) (req : BapbUpdateReq) : BapbUpdateData :=
  { order_number := if truthy req.orderNumber then req.orderNumber else none
    delivery_date := if truthy req.deliveryDate then req.deliveryDate else none
    notes := if req.notes.isSome then req.notes else none
    status := if bapb.status == .revisionRequired then some .draft else none
    rejection_reason := if bapb.status == .revisionRequired then some none else none }

/-- `bapbController.updateBAPB` on a found document.  When the current
status is `revision_required` the assembled update also resets
`status := "draft"` and `rejection_reason := null`. -/
def updateBAPB (bapb : BAPB) (bapbItems : List BapbItemRow) (callerId : Nat)
    (role : Role) (req : BapbUpdateReq) : Resp × BAPB × List BapbItemRow :=
  if isVendorBarang role && bapb.vendor_id != callerId then
    (.err 403 "Not authorized to update this BAPB", bapb, bapbItems)
  else if !canManageBAPB role then
    (.err 403 "Access denied. Only vendor barang can update BAPB", bapb, bapbItems)
  else if !isDraftOrRevision bapb.status then
    (.err 400 "Cannot update BAPB that is not in draft or revision status", bapb, bapbItems)
  else
    let r := updateWithItems bapb bapbItems (bapbUpdateDataOf bapb req) req.items
    (.ok, r.1, r.2)

/-- The partial `updateData` object assembled by `updateBAPP` (and
extended by `updateWithWorkItems` with the recomputed
`total_progress`). -/
structure BappUpdateData where
  contract_number : Option String := none
  project_name : Option String := none
  project_location : Option String := none
  start_date : Option String := none
  end_date : Option String := none
  completion_date : Option String := none
  notes : Option String := none
  status : Option Status := none
  rejection_reason : Option (Option String) := none
  total_progress : Option JsVal := none
deriving DecidableEq, Repr

/-- Row merge performed by the store for `update(id, updateData)`. -/
def applyBappUpdate (b : BAPP) (u : BappUpdateData) : BAPP :=
  { b with
    contract_number := patchS u.contract_number b.contract_number
    project_name := patchS u.project_name b.project_name
    project_location := patchS u.project_location b.project_location
    start_date := patchS u.start_date b.start_date
    end_date := patchS u.end_date b.end_date
    completion_date := patchS u.completion_date b.completion_date
    notes := patchS u.notes b.notes
    status := u.status.getD b.status
    rejection_reason := patchR u.rejection_reason b.rejection_reason
    total_progress := u.total_progress.getD b.total_progress }

/-- `BAPPRepository.updateWithWorkItems`: when a work-item list is
supplied, recompute `total_progress` from it, replace the document's
work-item rows with the mapped set and merge the document fields;
otherwise merge the fields only. -/
def updateWithWorkItems (bapp : BAPP) (rows : List BappWorkItemRow)
    (u : BappUpdateData) (workItems : Option (List WorkItemInput)) :
    BAPP × List BappWorkItemRow :=
  match workItems with
  | some its =>
      let u1 := { u with total_progress := some (calculateTotalProgress (some its)) }
      (applyBappUpdate bapp u1, its.map (mapBappWorkItem bapp.id))
  | none => (applyBappUpdate bapp u, rows)

/-- Request body of `PUT /api/bapp/:id`. -/
structure BappUpdateReq where
  contractNumber : Option String := none
  projectName : Option String := none
  projectLocation : Option String := none
  startDate : Option String := none
  endDate : Option String := none
  completionDate : Option String := none
  notes : Option String := none
  workItems : Option (List WorkItemInput) := none
deriving DecidableEq, Repr

/-- The `updateData` object assembled by `updateBAPP`, field by field as
for `bapbUpdateDataOf` (`total_progress` is added later by
`updateWithWorkItems` when a work-item list is supplied). -/
def bappUpdateDataOf (bapp : BAPP) (req : BappUpdateReq) : BappUpdateData :=
  { contract_number := if truthy req.contractNumber then req.contractNumber else none
    project_name := if truthy req.projectName then req.projectName else none
    project_location := if truthy req.projectLocation then req.projectLocation else none
    start_date := if truthy req.startDate then req.startDate else none
    end_date := if truthy req.endDate then req.endDate else none
    completion_date := if req.completionDate.isSome then req.completionDate else none
    notes := if req.notes.isSome then req.notes else none
    status := if bapp.status == .revisionRequired then some .draft else none
    rejection_reason := if bapp.status == .revisionRequired then some none else none }

/-- `bappController.updateBAPP` on a found document. -/
def updateBAPP (bapp : BAPP) (rows : List BappWorkItemRow) (callerId : Nat)
    (role : Role) (req : BappUpdateReq) : Resp × BAPP × List BappWorkItemRow :=
  if isVendorJasa role && bapp.vendor_id != callerId then
    (.err 403 "Not authorized to update this BAPP", bapp, rows)
  else if !canManageBAPP role then
    (.err 403 "Access denied. Only vendor jasa can update BAPP", bapp, rows)
  else if !isDraftOrRevision bapp.status then
    (.err 400 "Cannot update BAPP that is not in draft or revision status", bapp, rows)
  else
    let r := updateWithWorkItems bapp rows (bappUpdateDataOf bapp req) req.workItems
    (.ok, r.1, r.2)

/-! ### Number generation (`generateBAPBNumber` / `generateBAPPNumber`) -/

/-- A calendar timestamp; comparison of two valid timestamps through
`key` agrees with comparison of their ISO-8601 renderings (server clock
taken in UTC). -/
structure DateTime where
  year : Nat
  month : Nat
  day : Nat
  hour : Nat := 0
  minute : Nat := 0
  second : Nat := 0
deriving DecidableEq, Repr

/-- Positional encoding of a timestamp; order-isomorphic to chronological
order on valid timestamps. -/
def DateTime.key (t : DateTime) : Nat :=
  ((((t.year * 100 + t.month) * 100 + t.day) * 100 + t.hour) * 100 + t.minute) * 100 + t.second

/-- Gregorian leap-year rule, as implemented by the JavaScript `Date`. -/
def isLeapYear (y : Nat) : Bool :=
  (y % 4 == 0 && y % 100 != 0) || (y % 400 == 0)

/-- Length of a month, as computed by `new Date(year, month + 1, 0)`. -/
def daysInMonth (y M : Nat) : Nat :=
  if M == 2 then (if isLeapYear y then 29 else 28)
  else if M == 4 || M == 6 || M == 9 || M == 11 then 30
  else 31

/-- In-range components of a calendar timestamp. -/
structure DateTime.Valid (t : DateTime) : Prop where
  month_pos : 1 ≤ t.month
  month_le : t.month ≤ 12
  day_pos : 1 ≤ t.day
  day_le : t.day ≤ daysInMonth t.year t.month
  hour_le : t.hour ≤ 23
  minute_le : t.minute ≤ 59
  second_le : t.second ≤ 59

/-- The in-current-month test issued by the count query:
`created_at ≥ startOfMonth && created_at ≤ endOfMonth` with
`startOfMonth = new Date(year, month, 1)` and
`endOfMonth = new Date(year, month + 1, 0, 23, 59, 59)`. -/
def inCurrentMonth (y M : Nat) (c : DateTime) : Bool :=
  decide ((DateTime.mk y M 1 0 0 0).key ≤ c.key) &&
    decide (c.key ≤ (DateTime.mk y M (daysInMonth y M) 23 59 59).key)

/-- `BAPBRepository.generateBAPBNumber` with the server clock and the
`created_at` column of the existing `bapb` rows as inputs. -/
def generateBAPBNumber (now : DateTime) (createdAts : List DateTime) : String :=
  let year := now.year
  let month := zpad 2 now.month
  let count := (createdAts.filter (inCurrentMonth now.year now.month)).length
  let sequence := zpad 4 (count + 1)
  "BAPB/" ++ toString year ++ "/" ++ month ++ "/" ++ sequence

/-- `BAPPRepository.generateBAPPNumber`, structurally parallel. -/
def generateBAPPNumber (now : DateTime) (createdAts : List DateTime) : String :=
  let year := now.year
  let month := zpad 2 now.month
  let count := (createdAts.filter (inCurrentMonth now.year now.month)).length
  let sequence := zpad 4 (count + 1)
  "BAPP/" ++ toString year ++ "/" ++ month ++ "/" ++ sequence

/-! ### Payment service (`paymentService.js`) -/

/-- A row of the `payment_logs` table (fields consulted by the modelled
operations). -/
structure PaymentLogRow where
  document_type : String
  document_id : Nat
  vendor_id : Nat
  amount : ℚ := 0
  status : String
  transaction_id : String := ""
deriving DecidableEq, Repr

/-- A row of the `users` table (fields consulted by the modelled
operations). -/
structure UserRow where
  id : Nat
  is_active : Bool
  role : Role := .vendor
deriving DecidableEq, Repr

/-- The view of a document used by `checkPaymentReadiness` and the
payment processors. -/
structure DocView where
  id : Nat
  number : String
  status : Status
  vendor_id : Nat
deriving DecidableEq, Repr

/-- Result shape of `checkPaymentReadiness`. -/
structure Readiness where
  ready : Bool
  reason : String
  blockers : List String
deriving DecidableEq, Repr

/-- `paymentService.checkPaymentReadiness(documentType, documentId)`:
collect a blocker for each violated condition (unapproved status, an
existing `success` payment log for this document, inactive or missing
vendor); ready iff no blocker. -/
def checkPaymentReadiness (documentType : String) (document : Option DocView)
    (paymentLogs : List PaymentLogRow) (users : List UserRow) : Readiness :=
  match document with
  | none =>
      { ready := false, reason := "Document not found"
        blockers := ["Document does not exist"] }
  | some doc =>
      let statusBlockers : List String :=
        if doc.status == .approved then [] else ["Document is not approved"]
      let existingPayments := paymentLogs.filter (fun l =>
        l.document_type == documentType && l.document_id == doc.id && l.status == "success")
      let paymentBlockers : List String :=
        if existingPayments.length > 0 then ["Payment already processed for this document"] else []
      let vendorBlockers : List String :=
        match users.find? (fun u => u.id == doc.vendor_id) with
        | some v => if v.is_active then [] else ["Vendor account is inactive or not found"]
        | none => ["Vendor account is inactive or not found"]
      let blockers := statusBlockers ++ paymentBlockers ++ vendorBlockers
      { ready := blockers.isEmpty
        reason := if blockers.length > 0 then "Document not ready for payment" else "Document ready for payment"
        blockers := blockers }

/-- Response of the simulated gateway (`simulatePaymentGateway`); its
`status` is random at run time, so it is an input here. -/
structure GatewayResult where
  status : String
  transactionId : String
deriving DecidableEq, Repr

/-- Observable store/notification effects of a payment-processing run, in
issue order. -/
inductive PayEvent
  | logInsert (documentType : String) (documentId : Nat) (status : String)
  | notifyPayment (vendorId : Nat)
deriving DecidableEq, Repr

/-- `paymentService.processBAPBPayment` reduced to its effect trace: after
the gateway call, `logPaymentAttempt` is issued, then
`notifyPaymentProcessed` only when the gateway reported `success`. -/
def processBAPBPayment (bapb : Option DocView) (gw : GatewayResult) :
    Except String (List PayEvent) :=
  match bapb with
  | none => .error "BAPB not found"
  | some b =>
      if b.status != .approved then
        .error "BAPB must be approved before payment processing"
      else
        let events := [PayEvent.logInsert "BAPB" b.id gw.status]
        let events := if gw.status == "success" then
            events ++ [PayEvent.notifyPayment b.vendor_id]
          else events
        .ok events

/-- `paymentService.processBAPPPayment` reduced to its effect trace,
structurally parallel to `processBAPBPayment`. -/
def processBAPPPayment (bapp : Option DocView) (gw : GatewayResult) :
    Except String (List PayEvent) :=
  match bapp with
  | none => .error "BAPP not found"
  | some b =>
      if b.status != .approved then
        .error "BAPP must be approved before payment processing"
      else
        let events := [PayEvent.logInsert "BAPP" b.id gw.status]
        let events := if gw.status == "success" then
            events ++ [PayEvent.notifyPayment b.vendor_id]
          else events
        .ok events

/-! ### Approval state machine (`bapbApprovalController.js`,
`bappApprovalController.js`, `signatureController.approveBAPB`) -/

/-- Whitespace test of JavaScript `trim()`. -/
def isSpaceChar (c : Char) : Bool :=
  c == ' ' || c == '\t' || c == '\n' || c == '\r'

/-- `String.prototype.trim()`: strip leading and trailing whitespace. -/
def jsTrim (s : String) : String :=
  String.mk (((s.data.dropWhile isSpaceChar).reverse.dropWhile isSpaceChar).reverse)

/-- A row of the `bapb_approvals` / `bapp_approvals` table. -/
structure ApprovalRec where
  doc_id : Nat
  approver_id : Nat
  action : Action
  notes : Option String := none
deriving DecidableEq, Repr

/-- A row of the `bapb_attachments` / `bapp_attachments` table (fields
consulted by the signature checks). -/
structure AttachRow where
  doc_id : Nat
  uploaded_by : Nat
  file_type : String
deriving DecidableEq, Repr

/-- Store contents touched by a BAPB approval-cycle transition. -/
structure BapbApprovalSt where
  doc : BAPB
  approvals : List ApprovalRec
  attachments : List AttachRow
deriving DecidableEq, Repr

/-- Store contents touched by a BAPP approval-cycle transition. -/
structure BappApprovalSt where
  doc : BAPP
  approvals : List ApprovalRec
  attachments : List AttachRow
deriving DecidableEq, Repr

/-- Rows matched by the `hasUserApproved` query (`doc_id`, `approver_id`,
`action = "approved"`). -/
def approvedMatches (approvals : List ApprovalRec) (docId approverId : Nat) :
    List ApprovalRec :=
  approvals.filter (fun a =>
    a.doc_id == docId && a.approver_id == approverId && a.action == Action.approved)

/-- `hasUserApproved`: the query ends in `.single()`, whose PGRST116
error (zero or several rows) is swallowed leaving null data, so the check
is true exactly when one row matches. -/
def hasUserApproved (approvals : List ApprovalRec) (docId approverId : Nat) : Bool :=
  (approvedMatches approvals docId approverId).length == 1

/-- Rows matched by the signature lookup (`doc_id`,
`uploaded_by = approver`, `file_type = "signature"`). -/
def signatureMatches (attachments : List AttachRow) (docId approverId : Nat) :
    List AttachRow :=
  attachments.filter (fun a =>
    a.doc_id == docId && a.uploaded_by == approverId && a.file_type == "signature")

/-- Which of the two sequenced writes of an approval-cycle transition
succeed (the approval-record insert, then the document update). -/
structure ApprovalOracle where
  insertOk : Bool
  updateOk : Bool
deriving DecidableEq, Repr

/-- Controller outcome of an approval-cycle transition; a success carries
the optional non-blocking `warning` field of the response body. -/
inductive ApproveOutcome
  | err (code : Nat) (message : String)
  | ok (warning : Option String)
deriving DecidableEq, Repr

/-- `signatureController.approveBAPB` (the mounted, warning-producing
variant): status, role and double-approval checks; then a `maybeSingle`
signature lookup that only sets a warning (missing signature, or several
rows making the lookup error); then the approval-record insert, the
status/PIC update, and a success response carrying the warning if any. -/
def approveBAPB (st : BapbApprovalSt) (approverId : Nat) (role : Role)
    (notes : Option String) (o : ApprovalOracle) : ApproveOutcome × BapbApprovalSt :=
  if !isSubmittedOrInReview st.doc.status then
    (.err 400 "BAPB must be in submitted or in_review status to be approved", st)
  else if !bapbReviewerRole role then
    (.err 403 "Not authorized to approve BAPB", st)
  else if hasUserApproved st.approvals st.doc.id approverId then
    (.err 400 "You have already approved this BAPB", st)
  else
    let sigs := signatureMatches st.attachments st.doc.id approverId
    let warning : Option String :=
      if sigs.length == 1 then none
      else if sigs.length == 0 then
        some "Approved without signature - please upload signature for complete documentation"
      else some "Could not verify signature status"
    if !o.insertOk then (.err 500 "Error approving BAPB", st)
    else
      let st1 := { st with approvals :=
        st.approvals ++ [{ doc_id := st.doc.id, approver_id := approverId
                           action := .approved, notes := notes }] }
      let newPic := if st.doc.pic_gudang_id == none && role == Role.picGudang then
          some approverId
        else st.doc.pic_gudang_id
      if !o.updateOk then (.err 500 "Error approving BAPB", st1)
      else
        (.ok warning,
          { st1 with doc := { st1.doc with status := .approved, pic_gudang_id := newPic } })

/-- `bappApprovalController.approveBAPP`: like `approveBAPB` but the
signature lookup ends in `.single()` and blocks — unless exactly one
signature row exists the approval is refused with a guidance message
before any write. -/
def approveBAPP (st : BappApprovalSt) (approverId : Nat) (role : Role)
    (notes : Option String) (o : ApprovalOracle) : ApproveOutcome × BappApprovalSt :=
  if !isSubmittedOrInReview st.doc.status then
    (.err 400 "BAPP must be in submitted or in_review status to be approved", st)
  else if !bappReviewerRole role then
    (.err 403 "Not authorized to approve BAPP", st)
  else if hasUserApproved st.approvals st.doc.id approverId then
    (.err 400 "You have already approved this BAPP", st)
  else if (signatureMatches st.attachments st.doc.id approverId).length != 1 then
    (.err 400 "Please upload your signature first before approving. Use POST /api/bapp/:id/signature to upload.", st)
  else if !o.insertOk then (.err 500 "Error approving BAPP", st)
  else
    let st1 := { st with approvals :=
      st.approvals ++ [{ doc_id := st.doc.id, approver_id := approverId
                         action := .approved, notes := notes }] }
    let newDireksi := if st.doc.direksi_pekerjaan_id == none && role == Role.approver then
        some approverId
      else st.doc.direksi_pekerjaan_id
    if !o.updateOk then (.err 500 "Error approving BAPP", st1)
    else
      (.ok none,
        { st1 with doc := { st1.doc with status := .approved, direksi_pekerjaan_id := newDireksi } })

/-- `bapbApprovalController.rejectBAPB`: reason, status and role checks;
insert the rejection record; set status `rejected` with the reason. -/
def rejectBAPB (st : BapbApprovalSt) (approverId : Nat) (role : Role)
    (notes : Option String) (rejectionReason : String) (o : ApprovalOracle) :
    ApproveOutcome × BapbApprovalSt :=
  if (jsTrim rejectionReason).length == 0 then
    (.err 400 "Rejection reason is required", st)
  else if !isSubmittedOrInReview st.doc.status then
    (.err 400 "BAPB must be in submitted or in_review status to be rejected", st)
  else if !bapbReviewerRole role then
    (.err 403 "Not authorized to reject BAPB", st)
  else if !o.insertOk then (.err 500 "Error rejecting BAPB", st)
  else
    let st1 := { st with approvals :=
      st.approvals ++ [{ doc_id := st.doc.id, approver_id := approverId
                         action := .rejected, notes := notes }] }
    if !o.updateOk then (.err 500 "Error rejecting BAPB", st1)
    else
      (.ok none,
        { st1 with doc := { st1.doc with status := .rejected, rejection_reason := some rejectionReason } })

/-- `bappApprovalController.rejectBAPP`, structurally parallel. -/
def rejectBAPP (st : BappApprovalSt) (approverId : Nat) (role : Role)
    (notes : Option String) (rejectionReason : String) (o : ApprovalOracle) :
    ApproveOutcome × BappApprovalSt :=
  if (jsTrim rejectionReason).length == 0 then
    (.err 400 "Rejection reason is required", st)
  else if !isSubmittedOrInReview st.doc.status then
    (.err 400 "BAPP must be in submitted or in_review status to be rejected", st)
  else if !bappReviewerRole role then
    (.err 403 "Not authorized to reject BAPP", st)
  else if !o.insertOk then (.err 500 "Error rejecting BAPP", st)
  else
    let st1 := { st with approvals :=
      st.approvals ++ [{ doc_id := st.doc.id, approver_id := approverId
                         action := .rejected, notes := notes }] }
    if !o.updateOk then (.err 500 "Error rejecting BAPP", st1)
    else
      (.ok none,
        { st1 with doc := { st1.doc with status := .rejected, rejection_reason := some rejectionReason } })

/-- `bapbApprovalController.requestRevisionBAPB`: like reject, but the
recorded action and resulting status are `revision_required`. -/
def requestRevisionBAPB (st : BapbApprovalSt) (approverId : Nat) (role : Role)
    (notes : Option String) (revisionReason : String) (o : ApprovalOracle) :
    ApproveOutcome × BapbApprovalSt :=
  if (jsTrim revisionReason).length == 0 then
    (.err 400 "Revision reason is required", st)
  else if !isSubmittedOrInReview st.doc.status then
    (.err 400 "BAPB must be in submitted or in_review status to request revision", st)
  else if !bapbReviewerRole role then
    (.err 403 "Not authorized to request revision", st)
  else if !o.insertOk then (.err 500 "Error requesting revision", st)
  else
    let st1 := { st with approvals :=
      st.approvals ++ [{ doc_id := st.doc.id, approver_id := approverId
                         action := .revisionRequired, notes := notes }] }
    if !o.updateOk then (.err 500 "Error requesting revision", st1)
    else
      (.ok none,
        { st1 with doc := { st1.doc with status := .revisionRequired, rejection_reason := some revisionReason } })

/-- `bappApprovalController.requestRevisionBAPP`, structurally parallel. -/
def requestRevisionBAPP (st : BappApprovalSt) (approverId : Nat) (role : Role)
    (notes : Option String) (revisionReason : String) (o : ApprovalOracle) :
    ApproveOutcome × BappApprovalSt :=
  if (jsTrim revisionReason).length == 0 then
    (.err 400 "Revision reason is required", st)
  else if !isSubmittedOrInReview st.doc.status then
    (.err 400 "BAPP must be in submitted or in_review status to request revision", st)
  else if !bappReviewerRole role then
    (.err 403 "Not authorized to request revision", st)
  else if !o.insertOk then (.err 500 "Error requesting revision", st)
  else
    let st1 := { st with approvals :=
      st.approvals ++ [{ doc_id := st.doc.id, approver_id := approverId
                         action := .revisionRequired, notes := notes }] }
    if !o.updateOk then (.err 500 "Error requesting revision", st1)
    else
      (.ok none,
        { st1 with doc := { st1.doc with status := .revisionRequired, rejection_reason := some revisionReason } })

/-- The at-most-one-approved-record invariant of the spec: for every
`(document, approver)` pair, at most one `approved` approval record. -/
def AtMostOneApproved (approvals : List ApprovalRec) : Prop :=
  ∀ d u, (approvedMatches approvals d u).length ≤ 1

/-! ## Theorems -/

/-- Summing `calcItemActual` by `foldl` equals the sum of the mapped list. -/
theorem totalActualProgress_eq_sum (l : List WorkItemInput) :
    totalActualProgress l = (l.map calcItemActual).sum := by
  have h : ∀ (l : List WorkItemInput) (a : ℚ),
      l.foldl (fun s it => s + calcItemActual it) a = a + (l.map calcItemActual).sum := by
    intro l
    induction l with
    | nil => intro a; simp
    | cons x xs ih => intro a; simp [ih]; ring
  simpa using h l 0

/-- C3: `calculateTotalProgress` returns the arithmetic mean of the
items' actual-progress values rounded to two decimals (`40` and `60`
yield `"50.00"`), and `0` for an empty or missing list; the value is
stored on every create and recomputed on every update that supplies a
work-item list. -/
theorem claimC3 :
    (∀ l : List WorkItemInput, l ≠ [] →
      calculateTotalProgress (some l) =
        .str (toFixed2 ((l.map calcItemActual).sum / (l.length : ℚ))))
    ∧ calculateTotalProgress none = .num 0
    ∧ calculateTotalProgress (some []) = .num 0
    ∧ calculateTotalProgress
        (some [{ actualProgress := some 40 }, { actualProgress := some 60 }]) = .str "50.00"
    ∧ (∀ db newId bappData workItems o r db2,
        createWithWorkItems db newId bappData workItems o = (.ok r, db2) →
        r.total_progress = calculateTotalProgress (some workItems))
    ∧ (∀ bapp rows u its,
        (updateWithWorkItems bapp rows u (some its)).1.total_progress =
          calculateTotalProgress (some its)) := by
  refine ⟨?_, rfl, rfl, ?_, ?_, ?_⟩
  · intro l hl
    simp [calculateTotalProgress, List.length_eq_zero, hl, totalActualProgress_eq_sum]
  · have h100 : totalActualProgress
        [({ actualProgress := some 40 } : WorkItemInput), { actualProgress := some 60 }] = 100 := by
      simp [totalActualProgress, calcItemActual, jsOrQ]
      norm_num
    have hfix : toFixed2 ((100 : ℚ) / 2) = "50.00" := by
      have h : (100 * ((100:ℚ)/2) + 1/2) = Rat.divInt 10001 2 := by
        rw [Rat.divInt_eq_div]; norm_num
      simp only [toFixed2, h]
      decide
    simp [calculateTotalProgress, h100]
    convert hfix using 2
  · intro db newId bappData workItems o r db2 h
    simp only [createWithWorkItems] at h
    split_ifs at h with h1 h2 h3
    · simp at h
    · simp at h
    · rw [Prod.mk.injEq, Except.ok.injEq] at h
      rw [← h.1]
    · rw [Prod.mk.injEq, Except.ok.injEq] at h
      rw [← h.1]
  · intro bapp rows u its
    simp [updateWithWorkItems, applyBappUpdate]

/-- C3 witness: the mean formula evaluated on the two-item list. -/
theorem claimC3_witness :
    ([({ actualProgress := some 40 } : WorkItemInput), { actualProgress := some 60 }]
      ≠ ([] : List WorkItemInput))
    ∧ calculateTotalProgress
        (some [({ actualProgress := some 40 } : WorkItemInput), { actualProgress := some 60 }])
      = .str (toFixed2 (([({ actualProgress := some 40 } : WorkItemInput),
          { actualProgress := some 60 }].map calcItemActual).sum / (2 : ℚ))) :=
  ⟨by simp, by
    have h := claimC3.1
      [({ actualProgress := some 40 } : WorkItemInput), { actualProgress := some 60 }]
      (by simp)
    simpa using h⟩

/-- A present key overwrites the stored value (truthy case). -/
theorem patchS_of_truthy (o old : Option String) (h : truthy o = true) :
    patchS o old = o := by
  cases o with
  | none => simp [truthy] at h
  | some s => rfl

/-- A present key overwrites the stored value (`isSome` case). -/
theorem patchS_of_isSome (o old : Option String) (h : o.isSome = true) :
    patchS o old = o := by
  cases o with
  | none => simp at h
  | some s => rfl

/-- C4: when the bulk item insert of a create-with-children call fails
after the document row was inserted, the repository deletes the
just-created document row and surfaces one aggregated error, so the
store is exactly as before the call — no document row without its items
survives. -/
theorem claimC4 :
    (∀ (db : BapbCreateDB) newId bapbData items (o : CreateOracle),
      items ≠ [] → o.docInsertOk = true → o.itemsInsertOk = false →
      (∀ r ∈ db.bapbs, r.id ≠ newId) →
      createWithItems db newId bapbData items o =
        (.error "Failed to create BAPB items: insert error", db))
    ∧ (∀ (db : BappCreateDB) newId bappData workItems (o : CreateOracle),
      workItems ≠ [] → o.docInsertOk = true → o.itemsInsertOk = false →
      (∀ r ∈ db.bapps, r.id ≠ newId) →
      createWithWorkItems db newId bappData workItems o =
        (.error "Failed to create BAPP work items: insert error", db)) := by
  constructor
  · intro db newId bapbData items o hne hdoc hitems hfresh
    have hlen : items.length > 0 := List.length_pos.mpr hne
    have h1 : db.bapbs.filter (fun r => r.id != newId) = db.bapbs :=
      List.filter_eq_self.mpr (fun r hr => by simpa using hfresh r hr)
    simp [createWithItems, hdoc, hitems, hlen, List.filter_append, h1]
  · intro db newId bappData workItems o hne hdoc hitems hfresh
    have hlen : workItems.length > 0 := List.length_pos.mpr hne
    have h1 : db.bapps.filter (fun r => r.id != newId) = db.bapps :=
      List.filter_eq_self.mpr (fun r hr => by simpa using hfresh r hr)
    simp [createWithWorkItems, hdoc, hitems, hlen, List.filter_append, h1]

/-- C4 witness: a one-item create against an empty store whose item
insert fails leaves the store empty. -/
theorem claimC4_witness :
    ([({} : BapbItemInput)] ≠ []) ∧
    createWithItems ⟨[], []⟩ 1 { bapb_number := "BAPB/2024/03/0001", vendor_id := 7 }
        [{}] ⟨true, false⟩ =
      (.error "Failed to create BAPB items: insert error", ⟨[], []⟩) :=
  ⟨by simp,
    claimC4.1 ⟨[], []⟩ 1 { bapb_number := "BAPB/2024/03/0001", vendor_id := 7 }
      [{}] ⟨true, false⟩ (by simp) rfl rfl (by simp)⟩

/-- C5: a submit succeeds only from `draft`/`revision_required`, only for
the owning vendor and only with at least one line item; a submit with
zero line items always fails and returns the document unchanged. -/
theorem claimC5 :
    (∀ (bapb : BAPB) items callerId role,
      items = [] →
        (submitBAPB bapb items callerId role).1 ≠ Resp.ok ∧
        (submitBAPB bapb items callerId role).2 = bapb)
    ∧ (∀ (bapb : BAPB) items callerId role,
      (submitBAPB bapb items callerId role).1 = Resp.ok →
        (bapb.status = .draft ∨ bapb.status = .revisionRequired) ∧
        bapb.vendor_id = callerId ∧ items ≠ [] ∧
        (submitBAPB bapb items callerId role).2 = { bapb with status := .submitted })
    ∧ (∀ (bapp : BAPP) workItems callerId role,
      workItems = [] →
        (submitBAPP bapp workItems callerId role).1 ≠ Resp.ok ∧
        (submitBAPP bapp workItems callerId role).2 = bapp)
    ∧ (∀ (bapp : BAPP) workItems callerId role,
      (submitBAPP bapp workItems callerId role).1 = Resp.ok →
        (bapp.status = .draft ∨ bapp.status = .revisionRequired) ∧
        bapp.vendor_id = callerId ∧ workItems ≠ [] ∧
        (submitBAPP bapp workItems callerId role).2 = { bapp with status := .submitted }) := by
  refine ⟨?_, ?_, ?_, ?_⟩
  · intro bapb items callerId role hempty
    subst hempty
    unfold submitBAPB
    split_ifs <;> simp_all
  · intro bapb items callerId role hok
    unfold submitBAPB at hok ⊢
    split_ifs at hok ⊢ with h1 h2 h3 h4
    all_goals simp at hok
    refine ⟨?_, ?_, ?_, rfl⟩
    · simp [isDraftOrRevision] at h3
      exact or_iff_not_imp_left.mpr h3
    · simpa using h1
    · intro heq
      exact h4 (by simp [heq])
  · intro bapp workItems callerId role hempty
    subst hempty
    unfold submitBAPP
    split_ifs <;> simp_all
  · intro bapp workItems callerId role hok
    unfold submitBAPP at hok ⊢
    split_ifs at hok ⊢ with h1 h2 h3 h4
    all_goals simp at hok
    refine ⟨?_, ?_, ?_, rfl⟩
    · simp [isDraftOrRevision] at h3
      exact or_iff_not_imp_left.mpr h3
    · simpa using h1
    · intro heq
      exact h4 (by simp [heq])

/-- C5 witness: a zero-item submit by the owning vendor of a draft BAPB
is refused and the document is returned unchanged. -/
theorem claimC5_witness :
    (([] : List BapbItemRow) = []) ∧
    ((submitBAPB { id := 1, bapb_number := "B-1", vendor_id := 7, status := .draft }
        [] 7 .vendorBarang).1 ≠ Resp.ok ∧
      (submitBAPB { id := 1, bapb_number := "B-1", vendor_id := 7, status := .draft }
        [] 7 .vendorBarang).2 =
        { id := 1, bapb_number := "B-1", vendor_id := 7, status := .draft }) :=
  ⟨rfl, claimC5.1 { id := 1, bapb_number := "B-1", vendor_id := 7, status := .draft }
    [] 7 .vendorBarang rfl⟩

/-- C6: an owner update of a `revision_required` document resets the
status to `draft` and clears `rejection_reason` in the same call while
applying the supplied field changes; an owner update of a `draft`
document applies the field changes but leaves status and
`rejection_reason` untouched. -/
theorem claimC6 :
    (∀ (bapb : BAPB) bapbItems callerId role req,
      bapb.vendor_id = callerId → canManageBAPB role = true →
      (bapb.status = .revisionRequired →
        (updateBAPB bapb bapbItems callerId role req).1 = .ok ∧
        (updateBAPB bapb bapbItems callerId role req).2.1.status = .draft ∧
        (updateBAPB bapb bapbItems callerId role req).2.1.rejection_reason = none ∧
        (truthy req.orderNumber = true →
          (updateBAPB bapb bapbItems callerId role req).2.1.order_number = req.orderNumber) ∧
        (truthy req.deliveryDate = true →
          (updateBAPB bapb bapbItems callerId role req).2.1.delivery_date = req.deliveryDate) ∧
        (req.notes.isSome = true →
          (updateBAPB bapb bapbItems callerId role req).2.1.notes = req.notes)) ∧
      (bapb.status = .draft →
        (updateBAPB bapb bapbItems callerId role req).1 = .ok ∧
        (updateBAPB bapb bapbItems callerId role req).2.1.status = .draft ∧
        (updateBAPB bapb bapbItems callerId role req).2.1.rejection_reason = bapb.rejection_reason ∧
        (truthy req.orderNumber = true →
          (updateBAPB bapb bapbItems callerId role req).2.1.order_number = req.orderNumber)))
    ∧ (∀ (bapp : BAPP) rows callerId role req,
      bapp.vendor_id = callerId → canManageBAPP role = true →
      (bapp.status = .revisionRequired →
        (updateBAPP bapp rows callerId role req).1 = .ok ∧
        (updateBAPP bapp rows callerId role req).2.1.status = .draft ∧
        (updateBAPP bapp rows callerId role req).2.1.rejection_reason = none ∧
        (truthy req.contractNumber = true →
          (updateBAPP bapp rows callerId role req).2.1.contract_number = req.contractNumber) ∧
        (truthy req.projectName = true →
          (updateBAPP bapp rows callerId role req).2.1.project_name = req.projectName) ∧
        (req.completionDate.isSome = true →
          (updateBAPP bapp rows callerId role req).2.1.completion_date = req.completionDate) ∧
        (req.notes.isSome = true →
          (updateBAPP bapp rows callerId role req).2.1.notes = req.notes)) ∧
      (bapp.status = .draft →
        (updateBAPP bapp rows callerId role req).1 = .ok ∧
        (updateBAPP bapp rows callerId role req).2.1.status = .draft ∧
        (updateBAPP bapp rows callerId role req).2.1.rejection_reason = bapp.rejection_reason ∧
        (truthy req.contractNumber = true →
          (updateBAPP bapp rows callerId role req).2.1.contract_number = req.contractNumber))) := by
  constructor
  · intro bapb bapbItems callerId role req hown hman
    have hupd : ∀ u items, (updateWithItems bapb bapbItems u items).1 = applyBapbUpdate bapb u := by
      intro u items; cases items <;> rfl
    constructor
    · intro hst
      simp [updateBAPB, hown, hman, hst, isDraftOrRevision, hupd, applyBapbUpdate,
        bapbUpdateDataOf, patchR]
      refine ⟨?_, ?_, ?_⟩
      · intro h; rw [if_pos h, patchS_of_truthy _ _ h]
      · intro h; rw [if_pos h, patchS_of_truthy _ _ h]
      · intro h; rw [if_pos h, patchS_of_isSome _ _ h]
    · intro hst
      simp [updateBAPB, hown, hman, hst, isDraftOrRevision, hupd, applyBapbUpdate,
        bapbUpdateDataOf, patchR]
      intro h
      rw [if_pos h, patchS_of_truthy _ _ h]
  · intro bapp rows callerId role req hown hman
    have hupd : ∀ u w, (updateWithWorkItems bapp rows u w).1 =
        applyBappUpdate bapp (match w with
          | some its => { u with total_progress := some (calculateTotalProgress (some its)) }
          | none => u) := by
      intro u w; cases w <;> rfl
    constructor
    · intro hst
      cases hw : req.workItems with
      | none =>
        simp [updateBAPP, hown, hman, hst, isDraftOrRevision, hupd, applyBappUpdate,
          bappUpdateDataOf, patchR, hw]
        refine ⟨?_, ?_, ?_, ?_⟩
        · intro h; rw [if_pos h, patchS_of_truthy _ _ h]
        · intro h; rw [if_pos h, patchS_of_truthy _ _ h]
        · intro h; rw [if_pos h, patchS_of_isSome _ _ h]
        · intro h; rw [if_pos h, patchS_of_isSome _ _ h]
      | some its =>
        simp [updateBAPP, hown, hman, hst, isDraftOrRevision, hupd, applyBappUpdate,
          bappUpdateDataOf, patchR, hw]
        refine ⟨?_, ?_, ?_, ?_⟩
        · intro h; rw [if_pos h, patchS_of_truthy _ _ h]
        · intro h; rw [if_pos h, patchS_of_truthy _ _ h]
        · intro h; rw [if_pos h, patchS_of_isSome _ _ h]
        · intro h; rw [if_pos h, patchS_of_isSome _ _ h]
    · intro hst
      cases hw : req.workItems with
      | none =>
        simp [updateBAPP, hown, hman, hst, isDraftOrRevision, hupd, applyBappUpdate,
          bappUpdateDataOf, patchR, hw]
        intro h; rw [if_pos h, patchS_of_truthy _ _ h]
      | some its =>
        simp [updateBAPP, hown, hman, hst, isDraftOrRevision, hupd, applyBappUpdate,
          bappUpdateDataOf, patchR, hw]
        intro h; rw [if_pos h, patchS_of_truthy _ _ h]

/-- C6 witness: updating a `revision_required` BAPB as its owner resets
status to `draft`, clears the rejection reason and applies the supplied
order number. -/
theorem claimC6_witness :
    let b : BAPB := { id := 1, bapb_number := "B-1", vendor_id := 7,
                      status := .revisionRequired, rejection_reason := some "fix qty" }
    let req : BapbUpdateReq := { orderNumber := some "PO-2" }
    b.vendor_id = 7 ∧
    (updateBAPB b [] 7 .vendor req).2.1.status = .draft ∧
    (updateBAPB b [] 7 .vendor req).2.1.rejection_reason = none ∧
    (updateBAPB b [] 7 .vendor req).2.1.order_number = some "PO-2" := by
  intro b req
  have h := (claimC6.1 b [] 7 .vendor req rfl rfl).1 rfl
  exact ⟨rfl, h.2.1, h.2.2.1, h.2.2.2.1 (by decide)⟩

/-- C8: on an existing document, `checkPaymentReadiness` is ready exactly
when the status is `approved`, no `success` payment log exists for the
document and the vendor account exists and is active; each violated
condition contributes its own blocker entry, all collected together; an
approved document with a prior successful payment log is not ready and
carries the duplicate-payment blocker. -/
theorem claimC8 :
    (∀ (documentType : String) (doc : DocView) (paymentLogs : List PaymentLogRow)
      (users : List UserRow),
      ((checkPaymentReadiness documentType (some doc) paymentLogs users).ready = true ↔
        (doc.status = .approved ∧
          paymentLogs.filter (fun l =>
            l.document_type == documentType && l.document_id == doc.id &&
              l.status == "success") = [] ∧
          (∃ v, users.find? (fun u => u.id == doc.vendor_id) = some v ∧ v.is_active = true)))
      ∧ ("Document is not approved" ∈
            (checkPaymentReadiness documentType (some doc) paymentLogs users).blockers ↔
          doc.status ≠ .approved)
      ∧ ("Payment already processed for this document" ∈
            (checkPaymentReadiness documentType (some doc) paymentLogs users).blockers ↔
          paymentLogs.filter (fun l =>
            l.document_type == documentType && l.document_id == doc.id &&
              l.status == "success") ≠ [])
      ∧ ("Vendor account is inactive or not found" ∈
            (checkPaymentReadiness documentType (some doc) paymentLogs users).blockers ↔
          ¬ (∃ v, users.find? (fun u => u.id == doc.vendor_id) = some v ∧
              v.is_active = true)))
    ∧ ((checkPaymentReadiness "BAPB"
          (some { id := 1, number := "BAPB/2024/03/0001", status := .approved, vendor_id := 7 })
          [{ document_type := "BAPB", document_id := 1, vendor_id := 7, status := "success" }]
          [{ id := 7, is_active := true }]).ready = false
        ∧ "Payment already processed for this document" ∈
          (checkPaymentReadiness "BAPB"
            (some { id := 1, number := "BAPB/2024/03/0001", status := .approved, vendor_id := 7 })
            [{ document_type := "BAPB", document_id := 1, vendor_id := 7, status := "success" }]
            [{ id := 7, is_active := true }]).blockers) := by
  constructor
  · intro documentType doc paymentLogs users
    unfold checkPaymentReadiness
    rcases h3 : users.find? (fun u => u.id == doc.vendor_id) with _ | v
    · by_cases h1 : doc.status = .approved <;>
        rcases h2 : paymentLogs.filter (fun l =>
          l.document_type == documentType && l.document_id == doc.id && l.status == "success")
          with _ | ⟨p, ps⟩ <;>
        simp [h1, h2, h3]
    · cases hv : v.is_active <;>
        (by_cases h1 : doc.status = .approved <;>
          rcases h2 : paymentLogs.filter (fun l =>
            l.document_type == documentType && l.document_id == doc.id && l.status == "success")
            with _ | ⟨p, ps⟩ <;>
          simp [h1, h2, h3, hv])
  · constructor
    · rfl
    · simp [checkPaymentReadiness]

/-- C9: in a payment-processing run on a found, approved document, the
payment-log insert is the first issued effect, and the vendor
notification is issued (after it) exactly when the simulated gateway
reported `success`; a failed settlement yields the log entry alone. -/
theorem claimC9 :
    ∀ (doc : DocView) (gw : GatewayResult),
      doc.status = .approved →
      (gw.status = "success" →
        processBAPBPayment (some doc) gw =
          .ok [.logInsert "BAPB" doc.id gw.status, .notifyPayment doc.vendor_id] ∧
        processBAPPPayment (some doc) gw =
          .ok [.logInsert "BAPP" doc.id gw.status, .notifyPayment doc.vendor_id]) ∧
      (gw.status ≠ "success" →
        processBAPBPayment (some doc) gw = .ok [.logInsert "BAPB" doc.id gw.status] ∧
        processBAPPPayment (some doc) gw = .ok [.logInsert "BAPP" doc.id gw.status]) ∧
      (∀ evs, processBAPBPayment (some doc) gw = .ok evs →
        evs.head? = some (.logInsert "BAPB" doc.id gw.status) ∧
        (PayEvent.notifyPayment doc.vendor_id ∈ evs ↔ gw.status = "success")) ∧
      (∀ evs, processBAPPPayment (some doc) gw = .ok evs →
        evs.head? = some (.logInsert "BAPP" doc.id gw.status) ∧
        (PayEvent.notifyPayment doc.vendor_id ∈ evs ↔ gw.status = "success")) := by
  intro doc gw happ
  by_cases hs : gw.status = "success" <;>
    simp_all [processBAPBPayment, processBAPPPayment]

/-- C9 witness: a successful settlement of an approved document logs then
notifies. -/
theorem claimC9_witness :
    (({ id := 1, number := "B-1", status := .approved, vendor_id := 7 } : DocView).status
        = Status.approved)
    ∧ processBAPBPayment
        (some { id := 1, number := "B-1", status := .approved, vendor_id := 7 })
        { status := "success", transactionId := "TXN-1" } =
      .ok [.logInsert "BAPB" 1 "success", .notifyPayment 7] :=
  ⟨rfl,
    ((claimC9 { id := 1, number := "B-1", status := .approved, vendor_id := 7 }
      { status := "success", transactionId := "TXN-1" } rfl).1 rfl).1⟩

/-- Filtering for approved records distributes over append. -/
theorem approvedMatches_append (l1 l2 : List ApprovalRec) (d u : Nat) :
    approvedMatches (l1 ++ l2) d u = approvedMatches l1 d u ++ approvedMatches l2 d u := by
  simp [approvedMatches]

/-- Appending one approved record for a pair with no prior approved
record preserves the at-most-one invariant. -/
theorem atMostOne_insert (approvals : List ApprovalRec) (docId uid : Nat)
    (notes : Option String) (hinv : AtMostOneApproved approvals)
    (hzero : (approvedMatches approvals docId uid).length = 0) :
    AtMostOneApproved (approvals ++
      [{ doc_id := docId, approver_id := uid, action := .approved, notes := notes }]) := by
  intro d u
  rw [approvedMatches_append, List.length_append]
  by_cases hdu : d = docId ∧ u = uid
  · obtain ⟨rfl, rfl⟩ := hdu
    have h1 : (approvedMatches
        [{ doc_id := d, approver_id := u, action := .approved, notes := notes }] d u).length ≤ 1 :=
      List.length_filter_le _ _
    omega
  · have h2 : approvedMatches
        [{ doc_id := docId, approver_id := uid, action := .approved, notes := notes }] d u = [] := by
      rcases not_and_or.mp hdu with h | h
      · have hne : docId ≠ d := Ne.symm h
        simp [approvedMatches, hne]
      · have hne : uid ≠ u := Ne.symm h
        simp [approvedMatches, hne]
    rw [h2]
    simpa using hinv d u

/-- C1: under the at-most-one invariant, an approve call by an approver
who already holds an approved record for the document fails with no
state change at all (for eligible callers in reviewable status,
precisely with the already-approved message of the `hasUserApproved`
guard), and every approve call preserves the invariant. -/
theorem claimC1 :
    (∀ (st : BapbApprovalSt) approverId role notes (o : ApprovalOracle),
      AtMostOneApproved st.approvals →
      (∃ a ∈ st.approvals, a.doc_id = st.doc.id ∧ a.approver_id = approverId ∧
        a.action = Action.approved) →
      ((approveBAPB st approverId role notes o).2 = st ∧
        ∀ w, (approveBAPB st approverId role notes o).1 ≠ ApproveOutcome.ok w))
    ∧ (∀ (st : BappApprovalSt) approverId role notes (o : ApprovalOracle),
      AtMostOneApproved st.approvals →
      (∃ a ∈ st.approvals, a.doc_id = st.doc.id ∧ a.approver_id = approverId ∧
        a.action = Action.approved) →
      ((approveBAPP st approverId role notes o).2 = st ∧
        ∀ w, (approveBAPP st approverId role notes o).1 ≠ ApproveOutcome.ok w))
    ∧ (∀ (st : BapbApprovalSt) approverId role notes (o : ApprovalOracle),
      AtMostOneApproved st.approvals →
      (∃ a ∈ st.approvals, a.doc_id = st.doc.id ∧ a.approver_id = approverId ∧
        a.action = Action.approved) →
      isSubmittedOrInReview st.doc.status = true →
      bapbReviewerRole role = true →
      approveBAPB st approverId role notes o =
        (.err 400 "You have already approved this BAPB", st))
    ∧ (∀ (st : BappApprovalSt) approverId role notes (o : ApprovalOracle),
      AtMostOneApproved st.approvals →
      (∃ a ∈ st.approvals, a.doc_id = st.doc.id ∧ a.approver_id = approverId ∧
        a.action = Action.approved) →
      isSubmittedOrInReview st.doc.status = true →
      bappReviewerRole role = true →
      approveBAPP st approverId role notes o =
        (.err 400 "You have already approved this BAPP", st))
    ∧ (∀ (st : BapbApprovalSt) approverId role notes (o : ApprovalOracle),
      AtMostOneApproved st.approvals →
      AtMostOneApproved (approveBAPB st approverId role notes o).2.approvals)
    ∧ (∀ (st : BappApprovalSt) approverId role notes (o : ApprovalOracle),
      AtMostOneApproved st.approvals →
      AtMostOneApproved (approveBAPP st approverId role notes o).2.approvals) := by
  have honeB : ∀ (st : BapbApprovalSt) approverId,
      AtMostOneApproved st.approvals →
      (∃ a ∈ st.approvals, a.doc_id = st.doc.id ∧ a.approver_id = approverId ∧
        a.action = Action.approved) →
      hasUserApproved st.approvals st.doc.id approverId = true := by
    intro st approverId hinv hex
    obtain ⟨a, ha, h1, h2, h3⟩ := hex
    have hmem : a ∈ approvedMatches st.approvals st.doc.id approverId := by
      simp [approvedMatches, List.mem_filter, ha, h1, h2, h3]
    have hge : 1 ≤ (approvedMatches st.approvals st.doc.id approverId).length :=
      List.length_pos.mpr (List.ne_nil_of_mem hmem)
    have hle := hinv st.doc.id approverId
    have hone : (approvedMatches st.approvals st.doc.id approverId).length = 1 := by omega
    simp [hasUserApproved, hone]
  have honeP : ∀ (st : BappApprovalSt) approverId,
      AtMostOneApproved st.approvals →
      (∃ a ∈ st.approvals, a.doc_id = st.doc.id ∧ a.approver_id = approverId ∧
        a.action = Action.approved) →
      hasUserApproved st.approvals st.doc.id approverId = true := by
    intro st approverId hinv hex
    obtain ⟨a, ha, h1, h2, h3⟩ := hex
    have hmem : a ∈ approvedMatches st.approvals st.doc.id approverId := by
      simp [approvedMatches, List.mem_filter, ha, h1, h2, h3]
    have hge : 1 ≤ (approvedMatches st.approvals st.doc.id approverId).length :=
      List.length_pos.mpr (List.ne_nil_of_mem hmem)
    have hle := hinv st.doc.id approverId
    have hone : (approvedMatches st.approvals st.doc.id approverId).length = 1 := by omega
    simp [hasUserApproved, hone]
  refine ⟨?_, ?_, ?_, ?_, ?_, ?_⟩
  · intro st approverId role notes o hinv hex
    have hhas := honeB st approverId hinv hex
    unfold approveBAPB
    split_ifs <;> simp_all
  · intro st approverId role notes o hinv hex
    have hhas := honeP st approverId hinv hex
    unfold approveBAPP
    split_ifs <;> simp_all
  · intro st approverId role notes o hinv hex hst hrole
    have hhas := honeB st approverId hinv hex
    simp [approveBAPB, hst, hrole, hhas]
  · intro st approverId role notes o hinv hex hst hrole
    have hhas := honeP st approverId hinv hex
    simp [approveBAPP, hst, hrole, hhas]
  · intro st approverId role notes o hinv
    unfold approveBAPB
    split_ifs with h1 h2 h3 h4 h5 <;> try exact hinv
    all_goals {
      have hzero : (approvedMatches st.approvals st.doc.id approverId).length = 0 := by
        have hne : (approvedMatches st.approvals st.doc.id approverId).length ≠ 1 := by
          simpa [hasUserApproved] using h3
        have hle := hinv st.doc.id approverId
        omega
      exact atMostOne_insert st.approvals st.doc.id approverId notes hinv hzero
    }
  · intro st approverId role notes o hinv
    unfold approveBAPP
    split_ifs with h1 h2 h3 h4 h5 h6 <;> try exact hinv
    all_goals {
      have hzero : (approvedMatches st.approvals st.doc.id approverId).length = 0 := by
        have hne : (approvedMatches st.approvals st.doc.id approverId).length ≠ 1 := by
          simpa [hasUserApproved] using h3
        have hle := hinv st.doc.id approverId
        omega
      exact atMostOne_insert st.approvals st.doc.id approverId notes hinv hzero
    }

/-- C1 witness: a second approve by the approver already on record is
refused with the already-approved message and no state change. -/
theorem claimC1_witness :
    let stW : BapbApprovalSt :=
      { doc := { id := 1, bapb_number := "B-1", vendor_id := 7, status := .submitted }
        approvals := [{ doc_id := 1, approver_id := 9, action := .approved, notes := none }]
        attachments := [] }
    AtMostOneApproved stW.approvals ∧
    approveBAPB stW 9 .picGudang none ⟨true, true⟩ =
      (.err 400 "You have already approved this BAPB", stW) := by
  intro stW
  have hinv : AtMostOneApproved stW.approvals := fun d u => List.length_filter_le _ _
  exact ⟨hinv,
    claimC1.2.2.1 stW 9 .picGudang none ⟨true, true⟩ hinv
      ⟨{ doc_id := 1, approver_id := 9, action := .approved, notes := none },
        by simp, rfl, rfl, rfl⟩ rfl rfl⟩

/-- C2: an approve attempt by an eligible reviewer on a reviewable
document who has uploaded no signature for it is refused with a guidance
message and no state change for BAPP, while for BAPB it succeeds (record
appended, status approved) with a non-blocking warning field. -/
theorem claimC2 :
    (∀ (st : BappApprovalSt) approverId role notes,
      isSubmittedOrInReview st.doc.status = true →
      bappReviewerRole role = true →
      hasUserApproved st.approvals st.doc.id approverId = false →
      (signatureMatches st.attachments st.doc.id approverId).length = 0 →
      approveBAPP st approverId role notes ⟨true, true⟩ =
        (.err 400 "Please upload your signature first before approving. Use POST /api/bapp/:id/signature to upload.", st))
    ∧ (∀ (st : BapbApprovalSt) approverId role notes,
      isSubmittedOrInReview st.doc.status = true →
      bapbReviewerRole role = true →
      hasUserApproved st.approvals st.doc.id approverId = false →
      (signatureMatches st.attachments st.doc.id approverId).length = 0 →
      (approveBAPB st approverId role notes ⟨true, true⟩).1 =
        .ok (some "Approved without signature - please upload signature for complete documentation") ∧
      (approveBAPB st approverId role notes ⟨true, true⟩).2.approvals =
        st.approvals ++
          [{ doc_id := st.doc.id, approver_id := approverId, action := .approved, notes := notes }] ∧
      (approveBAPB st approverId role notes ⟨true, true⟩).2.doc.status = .approved ∧
      (approveBAPB st approverId role notes ⟨true, true⟩).2.attachments = st.attachments) := by
  constructor
  · intro st approverId role notes hst hrole hh hsig
    simp [approveBAPP, hst, hrole, hh, hsig]
  · intro st approverId role notes hst hrole hh hsig
    simp [approveBAPB, hst, hrole, hh, hsig]

/-- C2 witness: with no signature on file, the same scenario refuses the
BAPP approval and lets the BAPB approval through with the warning. -/
theorem claimC2_witness :
    let stP : BappApprovalSt :=
      { doc := { id := 1, bapp_number := "P-1", vendor_id := 7, status := .submitted }
        approvals := [], attachments := [] }
    let stB : BapbApprovalSt :=
      { doc := { id := 1, bapb_number := "B-1", vendor_id := 7, status := .submitted }
        approvals := [], attachments := [] }
    approveBAPP stP 9 .approver none ⟨true, true⟩ =
      (.err 400 "Please upload your signature first before approving. Use POST /api/bapp/:id/signature to upload.", stP)
    ∧ (approveBAPB stB 9 .approver none ⟨true, true⟩).1 =
      .ok (some "Approved without signature - please upload signature for complete documentation")
    ∧ (approveBAPB stB 9 .approver none ⟨true, true⟩).2.doc.status = .approved := by
  intro stP stB
  refine ⟨claimC2.1 stP 9 .approver none rfl rfl rfl rfl, ?_, ?_⟩
  · exact (claimC2.2 stB 9 .approver none rfl rfl rfl rfl).1
  · exact (claimC2.2 stB 9 .approver none rfl rfl rfl rfl).2.2.1

/-- C10: in every approval-cycle transition the approval record is
inserted before the document update; when the update write fails, the
operation surfaces a 500 error with the newly inserted record already
persisted and the document row unchanged. -/
theorem claimC10 :
    (∀ (st : BapbApprovalSt) approverId role notes,
      isSubmittedOrInReview st.doc.status = true →
      bapbReviewerRole role = true →
      hasUserApproved st.approvals st.doc.id approverId = false →
      (approveBAPB st approverId role notes ⟨true, false⟩).1 = .err 500 "Error approving BAPB" ∧
      (approveBAPB st approverId role notes ⟨true, false⟩).2.approvals =
        st.approvals ++
          [{ doc_id := st.doc.id, approver_id := approverId, action := .approved, notes := notes }] ∧
      (approveBAPB st approverId role notes ⟨true, false⟩).2.doc = st.doc)
    ∧ (∀ (st : BappApprovalSt) approverId role notes,
      isSubmittedOrInReview st.doc.status = true →
      bappReviewerRole role = true →
      hasUserApproved st.approvals st.doc.id approverId = false →
      (signatureMatches st.attachments st.doc.id approverId).length = 1 →
      (approveBAPP st approverId role notes ⟨true, false⟩).1 = .err 500 "Error approving BAPP" ∧
      (approveBAPP st approverId role notes ⟨true, false⟩).2.approvals =
        st.approvals ++
          [{ doc_id := st.doc.id, approver_id := approverId, action := .approved, notes := notes }] ∧
      (approveBAPP st approverId role notes ⟨true, false⟩).2.doc = st.doc)
    ∧ (∀ (st : BapbApprovalSt) approverId role notes reason,
      ((jsTrim reason).length == 0) = false →
      isSubmittedOrInReview st.doc.status = true →
      bapbReviewerRole role = true →
      (rejectBAPB st approverId role notes reason ⟨true, false⟩).1 =
        .err 500 "Error rejecting BAPB" ∧
      (rejectBAPB st approverId role notes reason ⟨true, false⟩).2.approvals =
        st.approvals ++
          [{ doc_id := st.doc.id, approver_id := approverId, action := .rejected, notes := notes }] ∧
      (rejectBAPB st approverId role notes reason ⟨true, false⟩).2.doc = st.doc)
    ∧ (∀ (st : BappApprovalSt) approverId role notes reason,
      ((jsTrim reason).length == 0) = false →
      isSubmittedOrInReview st.doc.status = true →
      bappReviewerRole role = true →
      (rejectBAPP st approverId role notes reason ⟨true, false⟩).1 =
        .err 500 "Error rejecting BAPP" ∧
      (rejectBAPP st approverId role notes reason ⟨true, false⟩).2.approvals =
        st.approvals ++
          [{ doc_id := st.doc.id, approver_id := approverId, action := .rejected, notes := notes }] ∧
      (rejectBAPP st approverId role notes reason ⟨true, false⟩).2.doc = st.doc)
    ∧ (∀ (st : BapbApprovalSt) approverId role notes reason,
      ((jsTrim reason).length == 0) = false →
      isSubmittedOrInReview st.doc.status = true →
      bapbReviewerRole role = true →
      (requestRevisionBAPB st approverId role notes reason ⟨true, false⟩).1 =
        .err 500 "Error requesting revision" ∧
      (requestRevisionBAPB st approverId role notes reason ⟨true, false⟩).2.approvals =
        st.approvals ++
          [{ doc_id := st.doc.id, approver_id := approverId, action := .revisionRequired, notes := notes }] ∧
      (requestRevisionBAPB st approverId role notes reason ⟨true, false⟩).2.doc = st.doc)
    ∧ (∀ (st : BappApprovalSt) approverId role notes reason,
      ((jsTrim reason).length == 0) = false →
      isSubmittedOrInReview st.doc.status = true →
      bappReviewerRole role = true →
      (requestRevisionBAPP st approverId role notes reason ⟨true, false⟩).1 =
        .err 500 "Error requesting revision" ∧
      (requestRevisionBAPP st approverId role notes reason ⟨true, false⟩).2.approvals =
        st.approvals ++
          [{ doc_id := st.doc.id, approver_id := approverId, action := .revisionRequired, notes := notes }] ∧
      (requestRevisionBAPP st approverId role notes reason ⟨true, false⟩).2.doc = st.doc) := by
  refine ⟨?_, ?_, ?_, ?_, ?_, ?_⟩
  · intro st approverId role notes hst hrole hh
    simp [approveBAPB, hst, hrole, hh]
  · intro st approverId role notes hst hrole hh hsig
    simp [approveBAPP, hst, hrole, hh, hsig]
  · intro st approverId role notes reason hr hst hrole
    simp [rejectBAPB, hr, hst, hrole]
  · intro st approverId role notes reason hr hst hrole
    simp [rejectBAPP, hr, hst, hrole]
  · intro st approverId role notes reason hr hst hrole
    simp [requestRevisionBAPB, hr, hst, hrole]
  · intro st approverId role notes reason hr hst hrole
    simp [requestRevisionBAPP, hr, hst, hrole]

/-- C10 witness: a reject whose status update fails leaves the rejection
record persisted while the document row is unchanged. -/
theorem claimC10_witness :
    let stW : BapbApprovalSt :=
      { doc := { id := 1, bapb_number := "B-1", vendor_id := 7, status := .submitted }
        approvals := [], attachments := [] }
    (((jsTrim "bad quantity").length == 0) = false) ∧
    (rejectBAPB stW 9 .picGudang none "bad quantity" ⟨true, false⟩).2.approvals =
      [{ doc_id := 1, approver_id := 9, action := .rejected, notes := none }] ∧
    (rejectBAPB stW 9 .picGudang none "bad quantity" ⟨true, false⟩).2.doc = stW.doc := by
  intro stW
  have h := claimC10.2.2.1 stW 9 .picGudang none "bad quantity" (by decide) rfl rfl
  exact ⟨by decide, by rw [h.2.1]; rfl, h.2.2⟩

/-- `padStart` pads up to the width, never truncating. -/
theorem zpad_length (w n : Nat) : (zpad w n).length = max w (toString n).length := by
  unfold zpad
  rw [String.length_append]
  have h1 : (String.mk (List.replicate (w - (toString n).length) '0')).length =
      w - (toString n).length := by
    show (List.replicate (w - (toString n).length) '0').length = _
    simp
  rw [h1]
  omega

/-- Every month length computed by `daysInMonth` lies in `[28, 31]`. -/
theorem daysInMonth_bounds (y M : Nat) : 28 ≤ daysInMonth y M ∧ daysInMonth y M ≤ 31 := by
  unfold daysInMonth
  split_ifs <;> omega

/-- For valid timestamps the count-query range test selects exactly the
timestamps of the current calendar month. -/
theorem inCurrentMonth_iff (y M : Nat) (c : DateTime) (hM1 : 1 ≤ M) (hM2 : M ≤ 12)
    (hc : c.Valid) : inCurrentMonth y M c = true ↔ c.year = y ∧ c.month = M := by
  obtain ⟨hm1, hm2, hd1, hd2, hh, hmi, hs⟩ := hc
  have hD := daysInMonth_bounds y M
  have hD2 := daysInMonth_bounds c.year c.month
  simp only [inCurrentMonth, DateTime.key, Bool.and_eq_true, decide_eq_true_eq]
  constructor
  · rintro ⟨h1, h2⟩
    constructor <;> omega
  · rintro ⟨hy, hm⟩
    rw [hy, hm] at hd2
    constructor <;> omega

/-- C7: `generateBAPBNumber` / `generateBAPPNumber` count exactly the
existing documents created in the current calendar month and return
`PREFIX/year/2-digit month/4-digit sequence` with sequence = count + 1;
with six documents this month the sequence is `0007`. -/
theorem claimC7 :
    (∀ (now : DateTime) (docs : List DateTime),
      now.Valid → (∀ c ∈ docs, c.Valid) →
      (generateBAPBNumber now docs =
        "BAPB/" ++ toString now.year ++ "/" ++ zpad 2 now.month ++ "/" ++
          zpad 4 ((docs.filter (fun c =>
            c.year == now.year && c.month == now.month)).length + 1)) ∧
      (generateBAPPNumber now docs =
        "BAPP/" ++ toString now.year ++ "/" ++ zpad 2 now.month ++ "/" ++
          zpad 4 ((docs.filter (fun c =>
            c.year == now.year && c.month == now.month)).length + 1)) ∧
      (zpad 2 now.month).length = 2 ∧
      ((docs.filter (fun c => c.year == now.year && c.month == now.month)).length + 1 ≤ 9999 →
        (zpad 4 ((docs.filter (fun c =>
          c.year == now.year && c.month == now.month)).length + 1)).length = 4))
    ∧ generateBAPBNumber ⟨2024, 3, 15, 10, 30, 0⟩
        [⟨2024, 3, 1, 8, 0, 0⟩, ⟨2024, 3, 2, 9, 0, 0⟩, ⟨2024, 3, 5, 10, 0, 0⟩,
          ⟨2024, 3, 9, 11, 0, 0⟩, ⟨2024, 3, 12, 12, 0, 0⟩, ⟨2024, 3, 14, 13, 0, 0⟩,
          ⟨2024, 2, 28, 9, 0, 0⟩] = "BAPB/2024/03/0007" := by
  constructor
  · intro now docs hv hdocs
    have hfilter : docs.filter (inCurrentMonth now.year now.month) =
        docs.filter (fun c => c.year == now.year && c.month == now.month) := by
      apply List.filter_congr
      intro c hc
      have h := inCurrentMonth_iff now.year now.month c hv.month_pos hv.month_le (hdocs c hc)
      by_cases hin : c.year = now.year ∧ c.month = now.month
      · simp [h.mpr hin, hin.1, hin.2]
      · have hfalse : inCurrentMonth now.year now.month c = false := by
          rcases hin' : inCurrentMonth now.year now.month c
          · rfl
          · exact absurd (h.mp hin') hin
        rw [hfalse]
        rw [not_and_or] at hin
        rcases hin with h' | h' <;> simp [h']
    refine ⟨?_, ?_, ?_, ?_⟩
    · rw [generateBAPBNumber, hfilter]
    · rw [generateBAPPNumber, hfilter]
    · rw [zpad_length]
      have hlt : now.month < 10 ^ 2 := by have := hv.month_le; omega
      have hlen := Nat.repr_length now.month 2 (by omega) hlt
      have htos : toString now.month = Nat.repr now.month := rfl
      rw [htos]
      omega
    · intro hle
      rw [zpad_length]
      have hlt : (docs.filter (fun c =>
          c.year == now.year && c.month == now.month)).length + 1 < 10 ^ 4 := by omega
      have hlen := Nat.repr_length _ 4 (by omega) hlt
      have htos : toString ((docs.filter (fun c =>
          c.year == now.year && c.month == now.month)).length + 1) =
        Nat.repr ((docs.filter (fun c =>
          c.year == now.year && c.month == now.month)).length + 1) := rfl
      rw [htos]
      omega
  · decide

/-- C7 witness: the format theorem applied to the six-document March
example. -/
theorem claimC7_witness :
    let nowW : DateTime := ⟨2024, 3, 15, 10, 30, 0⟩
    let docsW : List DateTime :=
      [⟨2024, 3, 1, 8, 0, 0⟩, ⟨2024, 3, 2, 9, 0, 0⟩, ⟨2024, 3, 5, 10, 0, 0⟩,
        ⟨2024, 3, 9, 11, 0, 0⟩, ⟨2024, 3, 12, 12, 0, 0⟩, ⟨2024, 3, 14, 13, 0, 0⟩,
        ⟨2024, 2, 28, 9, 0, 0⟩]
    nowW.Valid ∧
    generateBAPBNumber nowW docsW =
      "BAPB/" ++ toString nowW.year ++ "/" ++ zpad 2 nowW.month ++ "/" ++
        zpad 4 ((docsW.filter (fun c =>
          c.year == nowW.year && c.month == nowW.month)).length + 1) := by
  intro nowW docsW
  have hv : nowW.Valid := by constructor <;> decide
  have hd : ∀ c ∈ docsW, c.Valid := by
    intro c hc
    simp only [docsW, List.mem_cons, List.not_mem_nil, or_false] at hc
    rcases hc with rfl | rfl | rfl | rfl | rfl | rfl | rfl <;> (constructor <;> decide)
  exact ⟨hv, (claimC7.1 nowW docsW hv hd).1⟩

end Vinalz
